import Mathlib

/-!
Verification of the status-classification layer of the sawtooth REST API
(`rest_api/sawtooth_rest_api/error_handlers.py`).

The source defines one base class `_ErrorTrap` holding two class variables
(`trigger`, `error`, both defaulting to `None`) and one classmethod `check`,
plus ten trivial subclasses that each override the two class variables.
`check(status)` first asserts that `trigger` and `error` are set, then raises
`error()` when `status == trigger`, and otherwise returns `None`.

Embedding choices:
- A trap is a record of the two class variables, each an `Option` because the
  Python defaults are `None`.
- Protobuf status values are integer-backed enums; they are embedded as
  `Nat` values (the Python `==` comparison in `check` is plain integer
  equality on enum values).
- The three observable outcomes of a call to `check` are embedded as a sum
  type `CheckResult`: an `AssertionError` with its message, a raised API
  error, or a normal return (`None` in Python).
-/

/-- The named error conditions from `sawtooth_rest_api.exceptions` that the
traps in `error_handlers.py` reference (the traps only name and raise them;
their HTTP rendering lives outside this layer). -/
inductive ApiError where
  | StatusResponseMissing
  | SubmittedBatchesInvalid
  | BatchQueueFull
  | InvalidStateAddress
  | BlockNotFound
  | BatchNotFound
  | TransactionNotFound
  | ReceiptNotFound
  | StateNotFound
  deriving DecidableEq, Repr

/-- The observable outcome of one call to `_ErrorTrap.check`. -/
inductive CheckResult where
  | assertionFailure (msg : String)
  | raised (e : ApiError)
  | passed
  deriving DecidableEq, Repr

/-- The class variables of an `_ErrorTrap` (sub)class. Both default to
`None` in the base class, hence the `Option` types. -/
structure ErrorTrap where
  trigger : Option Nat
  error : Option ApiError
  deriving DecidableEq, Repr

/-- `_ErrorTrap.check(status)`: assert `trigger` is set, assert `error`
is set, then raise `error()` when `status == trigger`, else return. -/
def ErrorTrap.check (cls : ErrorTrap) (status : Nat) : CheckResult :=
  match cls.trigger with
  | none => .assertionFailure "Invalid ErrorTrap, trigger not set"
  | some trig =>
    match cls.error with
    | none => .assertionFailure "Invalid ErrorTrap, error not set"
    | some err =>
      if status = trig then .raised err else .passed

/-- State-passing form of `check`. The Python method body contains no
assignment to any attribute and no other write, so the trap state is
returned unchanged alongside the outcome. -/
def ErrorTrap.checkSt (cls : ErrorTrap) (status : Nat) :
    CheckResult × ErrorTrap :=
  (cls.check status, cls)

/-- The base class `_ErrorTrap` itself: both class variables are `None`. -/
def baseErrorTrap : ErrorTrap := { trigger := none, error := none }

/-- Modelled from the spec: the integer values of the protobuf status
enumerations (`client_batch_submit_pb2`, `client_state_pb2`,
`client_block_pb2`, `client_batch_pb2`, `client_transaction_pb2`,
`client_receipt_pb2`), which live in the repository's protobuf layer, not
under the given source fragment. The spec fixes only that each enumeration
is integer-backed with its own distinct member set; the members named by
the traps are given distinct values within each enumeration, and `OK` is
the success member of every enumeration. -/
def specModelledEnums : Unit := ()

namespace ClientBatchStatusResponse
def OK : Nat := 1
def NO_RESOURCE : Nat := 5
end ClientBatchStatusResponse

namespace ClientBatchSubmitResponse
def OK : Nat := 1
def INVALID_BATCH : Nat := 2
def QUEUE_FULL : Nat := 3
end ClientBatchSubmitResponse

namespace ClientStateGetResponse
def OK : Nat := 1
def NO_RESOURCE : Nat := 5
def INVALID_ADDRESS : Nat := 6
end ClientStateGetResponse

namespace ClientStateListResponse
def OK : Nat := 1
def NO_RESOURCE : Nat := 5
def INVALID_ADDRESS : Nat := 6
end ClientStateListResponse

namespace ClientBlockGetResponse
def OK : Nat := 1
def NO_RESOURCE : Nat := 5
end ClientBlockGetResponse

namespace ClientBatchGetResponse
def OK : Nat := 1
def NO_RESOURCE : Nat := 5
end ClientBatchGetResponse

namespace ClientTransactionGetResponse
def OK : Nat := 1
def NO_RESOURCE : Nat := 5
end ClientTransactionGetResponse

namespace ClientReceiptGetResponse
def OK : Nat := 1
def NO_RESOURCE : Nat := 5
end ClientReceiptGetResponse

/-- `class StatusResponseMissing(_ErrorTrap)`. -/
def StatusResponseMissing : ErrorTrap :=
  { trigger := some ClientBatchStatusResponse.NO_RESOURCE
    error := some ApiError.StatusResponseMissing }

/-- `class BatchInvalidTrap(_ErrorTrap)`. -/
def BatchInvalidTrap : ErrorTrap :=
  { trigger := some ClientBatchSubmitResponse.INVALID_BATCH
    error := some ApiError.SubmittedBatchesInvalid }

/-- `class BatchQueueFullTrap(_ErrorTrap)`. -/
def BatchQueueFullTrap : ErrorTrap :=
  { trigger := some ClientBatchSubmitResponse.QUEUE_FULL
    error := some ApiError.BatchQueueFull }

/-- `class InvalidAddressTrap(_ErrorTrap)`. -/
def InvalidAddressTrap : ErrorTrap :=
  { trigger := some ClientStateGetResponse.INVALID_ADDRESS
    error := some ApiError.InvalidStateAddress }

/-- `class BlockNotFoundTrap(_ErrorTrap)`. -/
def BlockNotFoundTrap : ErrorTrap :=
  { trigger := some ClientBlockGetResponse.NO_RESOURCE
    error := some ApiError.BlockNotFound }

/-- `class BatchNotFoundTrap(_ErrorTrap)`. -/
def BatchNotFoundTrap : ErrorTrap :=
  { trigger := some ClientBatchGetResponse.NO_RESOURCE
    error := some ApiError.BatchNotFound }

/-- `class TransactionNotFoundTrap(_ErrorTrap)`. -/
def TransactionNotFoundTrap : ErrorTrap :=
  { trigger := some ClientTransactionGetResponse.NO_RESOURCE
    error := some ApiError.TransactionNotFound }

/-- `class ReceiptNotFoundTrap(_ErrorTrap)`. -/
def ReceiptNotFoundTrap : ErrorTrap :=
  { trigger := some ClientReceiptGetResponse.NO_RESOURCE
    error := some ApiError.ReceiptNotFound }

/-- `class StateNotFoundTrap(_ErrorTrap)`. -/
def StateNotFoundTrap : ErrorTrap :=
  { trigger := some ClientStateGetResponse.NO_RESOURCE
    error := some ApiError.StateNotFound }

/-- `class InvalidAddressListTrap(_ErrorTrap)`. -/
def InvalidAddressListTrap : ErrorTrap :=
  { trigger := some ClientStateListResponse.INVALID_ADDRESS
    error := some ApiError.InvalidStateAddress }

/-- Modelled from the spec: the grouping of traps into per-response-type
RuleSets (the spec's rule catalogue table). The route handlers that pick
which traps to run for each response type are outside the given source
fragment. -/
def batchStatusRules : List ErrorTrap := [StatusResponseMissing]

/-- Modelled from the spec: batch-submit RuleSet. -/
def batchSubmitRules : List ErrorTrap := [BatchInvalidTrap, BatchQueueFullTrap]

/-- Modelled from the spec: state-get RuleSet. -/
def stateGetRules : List ErrorTrap := [InvalidAddressTrap, StateNotFoundTrap]

/-- Modelled from the spec: state-list RuleSet. -/
def stateListRules : List ErrorTrap := [InvalidAddressListTrap]

/-- Modelled from the spec: block-get RuleSet. -/
def blockGetRules : List ErrorTrap := [BlockNotFoundTrap]

/-- Modelled from the spec: batch-get RuleSet. -/
def batchGetRules : List ErrorTrap := [BatchNotFoundTrap]

/-- Modelled from the spec: transaction-get RuleSet. -/
def transactionGetRules : List ErrorTrap := [TransactionNotFoundTrap]

/-- Modelled from the spec: receipt-get RuleSet. -/
def receiptGetRules : List ErrorTrap := [ReceiptNotFoundTrap]

/-- All eight per-response-type RuleSets of the rule catalogue. -/
def allRuleSets : List (List ErrorTrap) :=
  [batchStatusRules, batchSubmitRules, stateGetRules, stateListRules,
   blockGetRules, batchGetRules, transactionGetRules, receiptGetRules]

/-- Evaluating a RuleSet: run each trap's `check` in order; the first
assertion failure or raised error interrupts, otherwise control returns
normally (as a sequence of `Trap.check(status)` calls does in Python). -/
def checkAll : List ErrorTrap → Nat → CheckResult
  | [], _ => .passed
  | r :: rs, s =>
    match r.check s with
    | .passed => checkAll rs s
    | out => out

/-- Helper: a validly constructed trap whose trigger differs from the status
returns normally. -/
theorem check_passed_of_ne (t : ErrorTrap) (trig : Nat) (err : ApiError)
    (ht : t.trigger = some trig) (he : t.error = some err) (s : Nat)
    (hne : s ≠ trig) : t.check s = CheckResult.passed := by
  simp [ErrorTrap.check, ht, he, hne]

/-- Helper: evaluating a list of validly constructed traps none of whose
triggers equals the status returns normally. -/
theorem checkAll_eq_passed (R : List ErrorTrap) (s : Nat)
    (hv : ∀ t ∈ R, t.trigger ≠ none ∧ t.error ≠ none)
    (hs : ∀ t ∈ R, t.trigger ≠ some s) :
    checkAll R s = CheckResult.passed := by
  induction R with
  | nil => rfl
  | cons r rs ih =>
    obtain ⟨htn, hen⟩ := hv r (List.mem_cons_self r rs)
    obtain ⟨trig, ht⟩ := Option.ne_none_iff_exists'.mp htn
    obtain ⟨err, he⟩ := Option.ne_none_iff_exists'.mp hen
    have hne : s ≠ trig := by
      intro h
      exact hs r (List.mem_cons_self r rs) (by rw [ht, h])
    have hr : r.check s = CheckResult.passed :=
      check_passed_of_ne r trig err ht he s hne
    have hstep : checkAll (r :: rs) s = checkAll rs s := by
      simp [checkAll, hr]
    rw [hstep]
    exact ih (fun t htm => hv t (List.mem_cons_of_mem r htm))
      (fun t htm => hs t (List.mem_cons_of_mem r htm))

/-- C1: each trap of the rule catalogue, called with its listed triggering
status, raises exactly the listed named error condition. -/
theorem trap_catalogue_raises_listed_conditions :
    StatusResponseMissing.check ClientBatchStatusResponse.NO_RESOURCE =
      CheckResult.raised ApiError.StatusResponseMissing ∧
    BatchInvalidTrap.check ClientBatchSubmitResponse.INVALID_BATCH =
      CheckResult.raised ApiError.SubmittedBatchesInvalid ∧
    BatchQueueFullTrap.check ClientBatchSubmitResponse.QUEUE_FULL =
      CheckResult.raised ApiError.BatchQueueFull ∧
    InvalidAddressTrap.check ClientStateGetResponse.INVALID_ADDRESS =
      CheckResult.raised ApiError.InvalidStateAddress ∧
    StateNotFoundTrap.check ClientStateGetResponse.NO_RESOURCE =
      CheckResult.raised ApiError.StateNotFound ∧
    InvalidAddressListTrap.check ClientStateListResponse.INVALID_ADDRESS =
      CheckResult.raised ApiError.InvalidStateAddress ∧
    BlockNotFoundTrap.check ClientBlockGetResponse.NO_RESOURCE =
      CheckResult.raised ApiError.BlockNotFound ∧
    BatchNotFoundTrap.check ClientBatchGetResponse.NO_RESOURCE =
      CheckResult.raised ApiError.BatchNotFound ∧
    TransactionNotFoundTrap.check ClientTransactionGetResponse.NO_RESOURCE =
      CheckResult.raised ApiError.TransactionNotFound ∧
    ReceiptNotFoundTrap.check ClientReceiptGetResponse.NO_RESOURCE =
      CheckResult.raised ApiError.ReceiptNotFound := by
  decide

/-- C2: a validly constructed rule raises exactly its own condition when the
status equals its trigger, and otherwise returns normally with no error. -/
theorem valid_rule_raises_iff_trigger (t : ErrorTrap) (trig : Nat)
    (err : ApiError) (ht : t.trigger = some trig) (he : t.error = some err)
    (s : Nat) :
    (t.check s = CheckResult.raised err ↔ s = trig) ∧
    (s ≠ trig → t.check s = CheckResult.passed) ∧
    ∀ e : ApiError, t.check s = CheckResult.raised e → e = err := by
  by_cases h : s = trig <;>
    simp [ErrorTrap.check, ht, he, h]

/-- Witness for C2 at the batch-queue-full rule and its own trigger. -/
theorem valid_rule_raises_iff_trigger_witness :
    (BatchQueueFullTrap.check 3 = CheckResult.raised ApiError.BatchQueueFull ↔
      (3 : Nat) = 3) ∧
    ((3 : Nat) ≠ 3 → BatchQueueFullTrap.check 3 = CheckResult.passed) ∧
    ∀ e : ApiError, BatchQueueFullTrap.check 3 = CheckResult.raised e →
      e = ApiError.BatchQueueFull :=
  valid_rule_raises_iff_trigger BatchQueueFullTrap 3 ApiError.BatchQueueFull
    rfl rfl 3

/-- C3 counterexample: the base class `_ErrorTrap` is itself a rule value
registered with neither trigger nor condition set; its registration produces
a usable class object without any startup fault, and the missing-field
defect first surfaces when a request-time `check` call runs the assertion. -/
theorem unset_rule_survives_registration :
    baseErrorTrap.trigger = none ∧ baseErrorTrap.error = none ∧
    baseErrorTrap.check ClientBlockGetResponse.OK =
      CheckResult.assertionFailure "Invalid ErrorTrap, trigger not set" := by
  exact ⟨rfl, rfl, rfl⟩

/-- C3 amended: a rule registered without both trigger and condition set is
not rejected at registration; the defect is detected at request time, when
any `check` call fails the assertion with one fixed message, whatever the
status. -/
theorem unset_rule_detected_only_in_check (t : ErrorTrap)
    (h : t.trigger = none ∨ t.error = none) :
    ∃ m : String, ∀ s : Nat, t.check s = CheckResult.assertionFailure m := by
  cases ht : t.trigger with
  | none =>
    exact ⟨"Invalid ErrorTrap, trigger not set",
      fun s => by simp [ErrorTrap.check, ht]⟩
  | some trig =>
    cases he : t.error with
    | none =>
      exact ⟨"Invalid ErrorTrap, error not set",
        fun s => by simp [ErrorTrap.check, ht, he]⟩
    | some err => simp [ht, he] at h

/-- Witness for the amended C3 at the base class. -/
theorem unset_rule_detected_only_in_check_witness :
    ∃ m : String, ∀ s : Nat,
      baseErrorTrap.check s = CheckResult.assertionFailure m :=
  unset_rule_detected_only_in_check baseErrorTrap (Or.inl rfl)

/-- C4: for a status that is no trigger of its response type's RuleSet,
evaluating every rule of that RuleSet raises nothing and control returns
normally. -/
theorem unmatched_status_returns_normally (R : List ErrorTrap)
    (hR : R ∈ allRuleSets) (s : Nat)
    (hs : ∀ t ∈ R, t.trigger ≠ some s) :
    checkAll R s = CheckResult.passed := by
  have hv : ∀ R ∈ allRuleSets, ∀ t ∈ R,
      t.trigger ≠ none ∧ t.error ≠ none := by decide
  exact checkAll_eq_passed R s (hv R hR) hs

/-- Witness for C4: the OK status of a state-get response matches no
state-get rule. -/
theorem unmatched_status_returns_normally_witness :
    checkAll stateGetRules ClientStateGetResponse.OK = CheckResult.passed :=
  unmatched_status_returns_normally stateGetRules (by decide)
    ClientStateGetResponse.OK (by decide)

/-- C5: a trap with trigger or error unset fails the assertion for every
status, and the outcome is the same whatever status is supplied. -/
theorem unset_trap_check_always_asserts (t : ErrorTrap)
    (h : t.trigger = none ∨ t.error = none) (s u : Nat) :
    (∃ m : String, t.check s = CheckResult.assertionFailure m) ∧
    t.check s = t.check u := by
  cases ht : t.trigger with
  | none => exact ⟨⟨"Invalid ErrorTrap, trigger not set",
      by simp [ErrorTrap.check, ht]⟩, by simp [ErrorTrap.check, ht]⟩
  | some trig =>
    cases he : t.error with
    | none => exact ⟨⟨"Invalid ErrorTrap, error not set",
        by simp [ErrorTrap.check, ht, he]⟩, by simp [ErrorTrap.check, ht, he]⟩
    | some err => simp [ht, he] at h

/-- Witness for C5 at a trap with a condition but no trigger. -/
theorem unset_trap_check_always_asserts_witness :
    (∃ m : String, ErrorTrap.check
      { trigger := none, error := some ApiError.BlockNotFound } 0 =
        CheckResult.assertionFailure m) ∧
    ErrorTrap.check
      { trigger := none, error := some ApiError.BlockNotFound } 0 =
    ErrorTrap.check
      { trigger := none, error := some ApiError.BlockNotFound } 7 :=
  unset_trap_check_always_asserts
    { trigger := none, error := some ApiError.BlockNotFound }
    (Or.inl rfl) 0 7

/-- C6: the two two-rule RuleSets pair distinct triggers, and in every
RuleSet of the catalogue the list of triggers has no duplicate, so at most
one rule of a RuleSet can match a given status. -/
theorem ruleset_triggers_distinct :
    ClientStateGetResponse.INVALID_ADDRESS ≠
      ClientStateGetResponse.NO_RESOURCE ∧
    ClientBatchSubmitResponse.INVALID_BATCH ≠
      ClientBatchSubmitResponse.QUEUE_FULL ∧
    ∀ R ∈ allRuleSets, (R.map ErrorTrap.trigger).Nodup := by
  decide

/-- C7: classification is pure and deterministic; a second `check` on the
state returned by the first yields the identical outcome, and the outcome is
a function of the trap's two fields and the status alone. -/
theorem check_idempotent_pure (t u : ErrorTrap) (s : Nat)
    (ht : u.trigger = t.trigger) (he : u.error = t.error) :
    (t.checkSt s).1 = ((t.checkSt s).2.checkSt s).1 ∧
    (t.checkSt s).2.checkSt s = t.checkSt s ∧
    u.check s = t.check s := by
  refine ⟨rfl, rfl, ?_⟩
  simp [ErrorTrap.check, ht, he]

/-- Witness for C7 at the batch-queue-full rule. -/
theorem check_idempotent_pure_witness :
    (BatchQueueFullTrap.checkSt 3).1 =
      ((BatchQueueFullTrap.checkSt 3).2.checkSt 3).1 ∧
    (BatchQueueFullTrap.checkSt 3).2.checkSt 3 = BatchQueueFullTrap.checkSt 3 ∧
    BatchQueueFullTrap.check 3 = BatchQueueFullTrap.check 3 :=
  check_idempotent_pure BatchQueueFullTrap BatchQueueFullTrap 3 rfl rfl

/-- C8: `check` signals its outcome and nothing more; the trap's fields come
out of the call exactly as they went in, on the match path and the no-match
path alike. -/
theorem check_no_side_effect (t : ErrorTrap) (s : Nat) :
    (t.checkSt s).2 = t ∧
    (t.checkSt s).2.trigger = t.trigger ∧
    (t.checkSt s).2.error = t.error := by
  exact ⟨rfl, rfl, rfl⟩

/-- C9: `check` compares status to trigger by plain integer equality with no
membership test against the trigger's enumeration: any integer status equal
to the trigger value raises, any other returns normally. -/
theorem check_is_plain_integer_equality (t : ErrorTrap) (trig : Nat)
    (err : ApiError) (ht : t.trigger = some trig) (he : t.error = some err) :
    ∀ s : Nat, t.check s =
      if s = trig then CheckResult.raised err else CheckResult.passed := by
  intro s
  simp [ErrorTrap.check, ht, he]

/-- Witness for C9: the block-get trap fed the integer value of the
batch-get enumeration's NO_RESOURCE member. -/
theorem check_is_plain_integer_equality_witness :
    BlockNotFoundTrap.check ClientBatchGetResponse.NO_RESOURCE =
      if ClientBatchGetResponse.NO_RESOURCE = ClientBlockGetResponse.NO_RESOURCE
      then CheckResult.raised ApiError.BlockNotFound
      else CheckResult.passed :=
  check_is_plain_integer_equality BlockNotFoundTrap
    ClientBlockGetResponse.NO_RESOURCE ApiError.BlockNotFound rfl rfl
    ClientBatchGetResponse.NO_RESOURCE

/-- C10: the base class `_ErrorTrap`, whose trigger and error are both None,
is unusable: every `check` call fails the first assertion and never raises a
classification condition or returns normally. -/
theorem base_trap_unusable (s : Nat) :
    baseErrorTrap.check s =
      CheckResult.assertionFailure "Invalid ErrorTrap, trigger not set" ∧
    (∀ e : ApiError, baseErrorTrap.check s ≠ CheckResult.raised e) ∧
    baseErrorTrap.check s ≠ CheckResult.passed := by
  refine ⟨rfl, ?_, ?_⟩ <;> simp [baseErrorTrap, ErrorTrap.check]

/-- Witness for C8 at the state-not-found rule and its trigger. -/
theorem check_no_side_effect_witness :
    (StateNotFoundTrap.checkSt 5).2 = StateNotFoundTrap ∧
    (StateNotFoundTrap.checkSt 5).2.trigger = StateNotFoundTrap.trigger ∧
    (StateNotFoundTrap.checkSt 5).2.error = StateNotFoundTrap.error :=
  check_no_side_effect StateNotFoundTrap 5

/-- Witness for C10 at status 0. -/
theorem base_trap_unusable_witness :
    baseErrorTrap.check 0 =
      CheckResult.assertionFailure "Invalid ErrorTrap, trigger not set" ∧
    (∀ e : ApiError, baseErrorTrap.check 0 ≠ CheckResult.raised e) ∧
    baseErrorTrap.check 0 ≠ CheckResult.passed :=
  base_trap_unusable 0
